import Mathlib

/-!
Verification of the movie-record utility modules
(movie-manipulation.js and movie-validation.js).

The JavaScript fragment used by the two modules is shallowly embedded:

* `JSValue` models a JavaScript runtime value: `undefined`, `null`,
  booleans, numbers (modelled as rationals; NaN and the infinities are
  not representable, and no claim depends on them), strings, plain
  objects (association list of own enumerable properties in insertion
  order), and arrays (element list plus any extra named own properties).
* Property lookup, assignment, and deletion follow the semantics the
  source exercises: own-property lookup on objects, arrays (index keys,
  the `length` property, and extra named properties) and strings;
  assignment upserts on objects and arrays and, because both source
  files are ES modules and therefore strict-mode code, raises a
  `TypeError` when the assignment target is a primitive.
* Each source function is translated directly; functions that call
  `console.error` or `console.log` return the list of emitted messages
  alongside their result, and the four mutation functions, whose bodies
  can reach a strict-mode `TypeError`, return in the `Except` monad:
  `setMovieRating` and `addMovieGenre` assign a property to a
  guard-passing truthy value, which throws on primitives, while
  `removeDirectorProperty` calls `movie.hasOwnProperty` and
  `addCastMember` calls `movie.cast.push` through the caller-supplied
  record, so an own `hasOwnProperty` or `push` property shadows the
  prototype method with a non-callable value and the call throws.
-/

/-- The only exception reachable in the embedded fragment: the `TypeError`
raised by a strict-mode property assignment to a primitive value, or by
calling a prototype method that an own non-callable property shadows. -/
inductive JSError : Type where
  | typeError : JSError
  deriving DecidableEq

/-- A JavaScript runtime value, as used by the two modules.  Arrays carry
their element list and any extra named own properties (a plain array
literal has none). -/
inductive JSValue : Type where
  | vundefined : JSValue
  | vnull : JSValue
  | vbool : Bool → JSValue
  | vnum : ℚ → JSValue
  | vstr : String → JSValue
  | vobj : List (String × JSValue) → JSValue
  | varr : List JSValue → List (String × JSValue) → JSValue

/-- First-occurrence association-list lookup, the model of own-property
lookup on a plain object (JavaScript objects have distinct keys, so the
first occurrence is the only one). -/
def lookupProp : List (String × JSValue) → String → Option JSValue
  | [], _ => none
  | (k, v) :: rest, key => if k = key then some v else lookupProp rest key

/-- Property assignment on an association list: replace the first binding
of the key if present, append the binding otherwise.  This matches the
JavaScript `obj[key] = val` effect on own enumerable properties,
including key-insertion order. -/
def upsertProp : List (String × JSValue) → String → JSValue → List (String × JSValue)
  | [], key, val => [(key, val)]
  | (k, v) :: rest, key, val =>
    if k = key then (key, val) :: rest else (k, v) :: upsertProp rest key val

/-- Property deletion on an association list, the model of `delete obj[key]`. -/
def removeProp (ps : List (String × JSValue)) (key : String) : List (String × JSValue) :=
  ps.filter (fun p => !(p.1 == key))

/-- Value of digit characters, for canonical array-index strings. -/
def digitsVal (acc : Nat) : List Char → Option Nat
  | [] => some acc
  | c :: cs => if c.isDigit then digitsVal (acc * 10 + (c.toNat - 48)) cs else none

/-- Interprets a string as a canonical array index (decimal digits with no
leading zero), the keys under which JavaScript arrays and strings expose
their elements. -/
def strIndex? (k : String) : Option Nat :=
  match k.data with
  | [] => none
  | c :: cs => if c = '0' then (if cs = [] then some 0 else none) else digitsVal 0 (c :: cs)

/-- The JavaScript `typeof` operator on the embedded values. -/
def typeof : JSValue → String
  | .vundefined => "undefined"
  | .vnull => "object"
  | .vbool _ => "boolean"
  | .vnum _ => "number"
  | .vstr _ => "string"
  | .vobj _ => "object"
  | .varr _ _ => "object"

/-- JavaScript truthiness: everything is truthy except `undefined`, `null`,
`false`, zero and the empty string (NaN, the remaining falsy value, is
not representable in the rational number model). -/
def truthy : JSValue → Bool
  | .vundefined => false
  | .vnull => false
  | .vbool b => b
  | .vnum q => !(decide (q = 0))
  | .vstr s => !(decide (s = ""))
  | .vobj _ => true
  | .varr _ _ => true

/-- Own-property lookup (`Object.prototype.hasOwnProperty` and guarded
member reads).  Objects expose their bindings; arrays expose index keys,
`length` and extra named properties; strings expose index keys and
`length`; other primitives, `null` and `undefined` have no own
properties (the source only reaches lookup on `null`/`undefined` behind
short-circuit guards, where the result is unused). -/
def getOwn : JSValue → String → Option JSValue
  | .vobj fs, k => lookupProp fs k
  | .varr es ps, k =>
    if k = "length" then some (.vnum es.length)
    else
      match strIndex? k with
      | some i => es.get? i
      | none => lookupProp ps k
  | .vstr s, k =>
    if k = "length" then some (.vnum s.length)
    else
      match strIndex? k with
      | some i => (s.data.get? i).map (fun c => .vstr (String.singleton c))
      | none => none
  | _, _ => none

/-- `Object.prototype.hasOwnProperty.call v k`. -/
def hasOwn (v : JSValue) (k : String) : Bool :=
  (getOwn v k).isSome

/-- Member read `v[k]` as exercised by the source: every call site either
guards with `hasOwnProperty` or reads a key (`cast`, `title`, `year`)
that is absent from `Object.prototype`, so own-lookup with an
`undefined` fallback is the observed semantics.  Call sites guard with a
truthiness or `isObject` check before reading from `null`/`undefined`. -/
def getProp (v : JSValue) (k : String) : JSValue :=
  (getOwn v k).getD .vundefined

/-- Strict-mode property assignment `v[k] = val` (for the non-index keys
the source assigns: `rating`, `genre`).  On objects and arrays it
upserts the named property; on primitives, `null` and `undefined` it
raises a `TypeError`, as all strict-mode code does. -/
def setProp : JSValue → String → JSValue → Except JSError JSValue
  | .vobj fs, k, v => .ok (.vobj (upsertProp fs k v))
  | .varr es ps, k, v => .ok (.varr es (upsertProp ps k v))
  | _, _, _ => .error JSError.typeError

/-- Total named-property update, used where a guard has already
established that the target is an object or array holding the key (the
`movie.cast.push` update rebinds the `cast` property of a record that
was just read from it). -/
def setField : JSValue → String → JSValue → JSValue
  | .vobj fs, k, v => .vobj (upsertProp fs k v)
  | .varr es ps, k, v => .varr es (upsertProp ps k v)
  | m, _, _ => m

/-- `delete v[k]` (strict mode never throws here: all modelled properties
are configurable, and the source guards the call with `hasOwnProperty`). -/
def deleteProp : JSValue → String → JSValue
  | .vobj fs, k => .vobj (removeProp fs k)
  | .varr es ps, k => .varr es (removeProp ps k)
  | v, _ => v

/-- `Array.isArray`. -/
def jsIsArray : JSValue → Bool
  | .varr _ _ => true
  | _ => false

/-- `rating >= 0` for the already-`typeof`-guarded numeric argument (the
guard short-circuits, so the comparison is only evaluated on numbers). -/
def numGE (v : JSValue) (bound : ℚ) : Bool :=
  match v with
  | .vnum q => decide (bound ≤ q)
  | _ => false

/-- `rating <= 10` for the already-`typeof`-guarded numeric argument. -/
def numLE (v : JSValue) (bound : ℚ) : Bool :=
  match v with
  | .vnum q => decide (q ≤ bound)
  | _ => false

/-- `allowedGenres.includes(genre)` (SameValueZero membership; the guard
has already established that `genre` is a string). -/
def strIncludes (ls : List String) (v : JSValue) : Bool :=
  match v with
  | .vstr s => ls.contains s
  | _ => false

/-! ### movie-manipulation.js -/

/-- The module-level constant `allowedGenres`. -/
def allowedGenres : List String :=
  ["Animation", "Family", "Action", "Comedy", "Drama", "Sci-Fi"]

/-- `setMovieRating(movie, rating)`: guarded assignment of the `rating`
property; on the invalid path it logs and returns the first argument. -/
def setMovieRating (movie rating : JSValue) : Except JSError (JSValue × List String) :=
  if truthy movie && (typeof rating == "number") && numGE rating 0 && numLE rating 10 then
    (setProp movie "rating" rating).map (fun m => (m, []))
  else
    .ok (movie, ["Invalid movie object or rating"])

/-- `addMovieGenre(movie, genre)`: guarded assignment of the `genre`
property, validated against `allowedGenres`. -/
def addMovieGenre (movie genre : JSValue) : Except JSError (JSValue × List String) :=
  if truthy movie && (typeof genre == "string") && strIncludes allowedGenres genre then
    (setProp movie "genre" genre).map (fun m => (m, []))
  else
    .ok (movie, ["Invalid movie object or genre"])

/-- `removeDirectorProperty(movie)`: the source calls the method THROUGH
the record, `movie.hasOwnProperty("director")`.  Method lookup starts at
the record itself, so an own `hasOwnProperty` property shadows
`Object.prototype.hasOwnProperty`; the embedded value fragment contains
no function values, so every representable own shadow is non-callable
and the call raises a strict-mode `TypeError`.  Without a shadow the
inherited prototype method performs the safe own-property check, and the
function deletes the own `director` property when present, otherwise
logs and leaves the record unchanged. -/
def removeDirectorProperty (movie : JSValue) : Except JSError (JSValue × List String) :=
  if truthy movie then
    match getOwn movie "hasOwnProperty" with
    | some _ => .error JSError.typeError
    | none =>
      if hasOwn movie "director" then
        .ok (deleteProp movie "director", [])
      else
        .ok (movie, ["Invalid movie object or director property does not exist"])
  else
    .ok (movie, ["Invalid movie object or director property does not exist"])

/-- The `movie.cast.push(newMember)` call: the guard established that
`movie.cast` is an array, but `push` is looked up on that array itself
first, so an own `push` property among its named properties shadows
`Array.prototype.push`; no function value is representable, so such a
shadow is non-callable and the call raises a `TypeError`.  Without a
shadow the inherited method appends, so the record is rebound with the
element appended. -/
def pushCastCall (movie x : JSValue) : Except JSError JSValue :=
  match getProp movie "cast" with
  | .varr es ps =>
    match lookupProp ps "push" with
    | some _ => .error JSError.typeError
    | none => .ok (setField movie "cast" (.varr (es ++ [x]) ps))
  | _ => .ok movie

/-- `addCastMember(movie, newMember)`: appends to the existing `cast`
array when the guard passes (raising a `TypeError` when an own `push`
shadows the array method), otherwise logs and leaves the record
unchanged. -/
def addCastMember (movie newMember : JSValue) : Except JSError (JSValue × List String) :=
  if truthy movie && jsIsArray (getProp movie "cast") && (typeof newMember == "string") then
    (pushCastCall movie newMember).map (fun m => (m, []))
  else
    .ok (movie, ["Invalid movie object, cast array, or new member"])

/-- A store of string arrays, used to model array identity for
`getAllowedGenres`: the spread `[...allowedGenres]` allocates a fresh
cell each call, so caller mutation of a returned array can never reach
the module constant or a later result. -/
structure ArrayStore : Type where
  cells : List (List String)

/-- `getAllowedGenres()`: allocates a fresh array holding a copy of
`allowedGenres` and returns a reference to it. -/
def getAllowedGenresCall (s : ArrayStore) : ArrayStore × Nat :=
  (⟨s.cells ++ [allowedGenres]⟩, s.cells.length)

/-- Reading the contents of an array cell. -/
def readArray (s : ArrayStore) (r : Nat) : List String :=
  (s.cells[r]?).getD []

/-- A caller mutating the array it was handed, in the most general way:
overwriting the whole cell. -/
def writeArray (s : ArrayStore) (r : Nat) (v : List String) : ArrayStore :=
  ⟨s.cells.set r v⟩

/-! ### movie-validation.js -/

/-- `isObject(value)`: `value !== null && typeof value === "object"`. -/
def isObject (value : JSValue) : Bool :=
  (match value with
   | .vnull => false
   | _ => true) && (typeof value == "object")

/-- `hasPropertyOfType(obj, prop, expectedType)`. -/
def hasPropertyOfType (obj : JSValue) (prop expectedType : String) : Bool :=
  isObject obj && hasOwn obj prop && (typeof (getProp obj prop) == expectedType)

/-- `getMovieTitle(movie)`: the `title` string, or the empty-string
sentinel with a logged diagnostic (the fallback arm of the inner match
is unreachable, because the guard established that the property is a
string). -/
def getMovieTitle (movie : JSValue) : String × List String :=
  if !(hasPropertyOfType movie "title" "string") then
    ("", ["getMovieTitle: Invalid movie object or title missing."])
  else
    (match getProp movie "title" with
     | .vstr s => s
     | _ => "", [])

/-- `getMovieYear(movie)`: the `year` number, or the `0` sentinel with a
logged diagnostic (the fallback arm of the inner match is unreachable,
because the guard established that the property is a number). -/
def getMovieYear (movie : JSValue) : ℚ × List String :=
  if !(hasPropertyOfType movie "year" "number") then
    (0, ["getMovieYear: Invalid movie object or year missing."])
  else
    (match getProp movie "year" with
     | .vnum q => q
     | _ => 0, [])

/-- `isMovieClassic(movie)`: classic when the year is available and
strictly before 2000. -/
def isMovieClassic (movie : JSValue) : Bool × List String :=
  let yr := getMovieYear movie
  if yr.1 = 0 then
    (false, yr.2 ++ ["isMovieClassic: Movie object invalid or missing year."])
  else
    (decide (yr.1 < 2000), yr.2)

/-- `Object.keys`: own enumerable property names; for arrays, the index
keys in ascending order followed by the extra named properties (the
non-enumerable `length` is excluded).  Only called on values passing
`isObject`. -/
def objKeys : JSValue → List String
  | .vobj fs => fs.map Prod.fst
  | .varr es ps => (List.range es.length).map (fun i => toString i) ++ ps.map Prod.fst
  | _ => []

/-- `getMovieKeys(movie)`. -/
def getMovieKeys (movie : JSValue) : List String × List String :=
  if !(isObject movie) then
    ([], ["getMovieKeys: Provided input is not a valid object."])
  else
    (objKeys movie, [])

/-- `getMoviePropertiesCount(movie)`. -/
def getMoviePropertiesCount (movie : JSValue) : Nat × List String :=
  if !(isObject movie) then
    (0, ["getMoviePropertiesCount: Provided input is not a valid object."])
  else
    ((getMovieKeys movie).1.length, [])

/-! ### Specification-side predicates

These follow the wording of the specification, to be compared with the
code-side definitions above. -/

/-- Specification side: a non-null structured record. -/
def isStructured : JSValue → Bool
  | .vobj _ => true
  | .varr _ _ => true
  | _ => false

/-- Specification side: a numeric rating within `[0, 10]`. -/
def ratingOKb : JSValue → Bool
  | .vnum q => decide (0 ≤ q) && decide (q ≤ 10)
  | _ => false

/-- Specification side: a string that is an exact case-sensitive member of
the AllowedGenres set. -/
def genreOKb : JSValue → Bool
  | .vstr s => ["Animation", "Family", "Action", "Comedy", "Drama", "Sci-Fi"].contains s
  | _ => false

/-- Specification side: `m1` differs from `m` in at most the property `t` —
every other own property is unchanged and the key list with `t` removed
is unchanged. -/
def framedAt (m m1 : JSValue) (t : String) : Prop :=
  (∀ k, k ≠ t → getOwn m1 k = getOwn m k) ∧
  (objKeys m1).filter (fun a => !(a == t)) = (objKeys m).filter (fun a => !(a == t))

/-! ### Helper lemmas about the property primitives -/

theorem lookupProp_upsertProp_self (ps : List (String × JSValue)) (k : String) (v : JSValue) :
    lookupProp (upsertProp ps k v) k = some v := by
  induction ps with
  | nil => simp [upsertProp, lookupProp]
  | cons p rest ih =>
    by_cases h : p.1 = k
    · simp [upsertProp, h, lookupProp]
    · simp [upsertProp, h, lookupProp, ih]

theorem lookupProp_upsertProp_ne (ps : List (String × JSValue)) (k k1 : String) (v : JSValue)
    (h : k1 ≠ k) : lookupProp (upsertProp ps k v) k1 = lookupProp ps k1 := by
  have hk : ¬(k = k1) := fun hk => h hk.symm
  induction ps with
  | nil => simp [upsertProp, lookupProp, hk]
  | cons p rest ih =>
    obtain ⟨a, b⟩ := p
    by_cases hp : a = k
    · subst hp
      simp [upsertProp, lookupProp, hk]
    · simp [upsertProp, hp, lookupProp, ih]

theorem keysFilter_upsertProp (ps : List (String × JSValue)) (k : String) (v : JSValue) :
    ((upsertProp ps k v).map Prod.fst).filter (fun a => !(a == k)) =
      (ps.map Prod.fst).filter (fun a => !(a == k)) := by
  induction ps with
  | nil => simp [upsertProp]
  | cons p rest ih =>
    by_cases hp : p.1 = k
    · subst hp
      simp [upsertProp]
    · simp [upsertProp, hp, ih]

theorem lookupProp_removeProp_self (ps : List (String × JSValue)) (k : String) :
    lookupProp (removeProp ps k) k = none := by
  induction ps with
  | nil => simp [removeProp, lookupProp]
  | cons p rest ih =>
    by_cases hp : p.1 = k
    · simpa [removeProp, hp, lookupProp] using ih
    · simp [removeProp, hp, lookupProp] at ih ⊢
      simpa [hp] using ih

theorem lookupProp_removeProp_ne (ps : List (String × JSValue)) (k k1 : String)
    (h : k1 ≠ k) : lookupProp (removeProp ps k) k1 = lookupProp ps k1 := by
  have hk : ¬(k = k1) := fun hk => h hk.symm
  induction ps with
  | nil => simp [removeProp, lookupProp]
  | cons p rest ih =>
    obtain ⟨a, b⟩ := p
    by_cases hp : a = k
    · subst hp
      simpa [removeProp, lookupProp, hk] using ih
    · by_cases hk1 : a = k1
      · subst hk1
        simp [removeProp, lookupProp, hp]
      · simpa [removeProp, lookupProp, hp, hk1] using ih

theorem keysFilter_removeProp (ps : List (String × JSValue)) (k : String) :
    ((removeProp ps k).map Prod.fst).filter (fun a => !(a == k)) =
      (ps.map Prod.fst).filter (fun a => !(a == k)) := by
  induction ps with
  | nil => simp [removeProp]
  | cons p rest ih =>
    by_cases hp : p.1 = k
    · simpa [removeProp, hp] using ih
    · simpa [removeProp, hp] using ih

/-! ### The named keys the source uses are not array-index keys -/

theorem strIndex?_rating : strIndex? "rating" = none := by decide

theorem strIndex?_genre : strIndex? "genre" = none := by decide

theorem strIndex?_director : strIndex? "director" = none := by decide

theorem strIndex?_cast : strIndex? "cast" = none := by decide

theorem strIndex?_title : strIndex? "title" = none := by decide

theorem strIndex?_year : strIndex? "year" = none := by decide

theorem strIndex?_hasOwnProperty : strIndex? "hasOwnProperty" = none := by decide

/-! ### Mid-level lemmas about the embedded functions -/

theorem isObject_eq_isStructured (m : JSValue) : isObject m = isStructured m := by
  cases m <;> rfl

theorem structured_truthy (m : JSValue) (h : isStructured m = true) : truthy m = true := by
  cases m <;> simp_all [isStructured, truthy]

theorem setProp_structured (m : JSValue) (h : isStructured m = true) (k : String) (v : JSValue) :
    setProp m k v = Except.ok (setField m k v) := by
  cases m <;> simp_all [isStructured, setProp, setField]

theorem setProp_primitive (m : JSValue) (h : isStructured m = false) (k : String) (v : JSValue) :
    setProp m k v = Except.error JSError.typeError := by
  cases m <;> simp_all [isStructured, setProp]

theorem getOwn_setField_self (m : JSValue) (h : isStructured m = true) (k : String) (v : JSValue)
    (h1 : ¬(k = "length")) (h2 : strIndex? k = none) :
    getOwn (setField m k v) k = some v := by
  cases m <;>
    simp_all [isStructured, setField, getOwn, h1, h2, lookupProp_upsertProp_self]

theorem framedAt_refl (m : JSValue) (t : String) : framedAt m m t :=
  ⟨fun _ _ => rfl, rfl⟩

theorem framedAt_setField (m : JSValue) (t : String) (v : JSValue) :
    framedAt m (setField m t v) t := by
  cases m with
  | vobj fs =>
    constructor
    · intro k hk
      simp [setField, getOwn, lookupProp_upsertProp_ne fs t k v hk]
    · simpa [setField, objKeys] using keysFilter_upsertProp fs t v
  | varr es ps =>
    constructor
    · intro k hk
      by_cases hl : k = "length"
      · simp [setField, getOwn, hl]
      · cases hi : strIndex? k <;>
          simp [setField, getOwn, hl, hi, lookupProp_upsertProp_ne ps t k v hk]
    · simp [setField, objKeys, List.filter_append, keysFilter_upsertProp]
  | _ => exact framedAt_refl _ _

theorem getOwn_deleteProp_self (m : JSValue) (k : String)
    (h1 : ¬(k = "length")) (h2 : strIndex? k = none) :
    getOwn (deleteProp m k) k = none := by
  cases m <;>
    simp_all [deleteProp, getOwn, h1, h2, lookupProp_removeProp_self]

theorem framedAt_deleteProp (m : JSValue) (t : String) :
    framedAt m (deleteProp m t) t := by
  cases m with
  | vobj fs =>
    constructor
    · intro k hk
      simp [deleteProp, getOwn, lookupProp_removeProp_ne fs t k hk]
    · simpa [deleteProp, objKeys] using keysFilter_removeProp fs t
  | varr es ps =>
    constructor
    · intro k hk
      by_cases hl : k = "length"
      · simp [deleteProp, getOwn, hl]
      · cases hi : strIndex? k <;>
          simp [deleteProp, getOwn, hl, hi, lookupProp_removeProp_ne ps t k hk]
    · simp [deleteProp, objKeys, List.filter_append, keysFilter_removeProp]
  | _ => exact framedAt_refl _ _

theorem setMovieRating_falsy (m r : JSValue) (h : truthy m = false) :
    setMovieRating m r = Except.ok (m, ["Invalid movie object or rating"]) := by
  simp [setMovieRating, h]

theorem setMovieRating_structured (m r : JSValue) (h : isStructured m = true) :
    setMovieRating m r =
      if ratingOKb r then Except.ok (setField m "rating" r, [])
      else Except.ok (m, ["Invalid movie object or rating"]) := by
  have ht := structured_truthy m h
  cases r <;>
    simp [setMovieRating, ht, typeof, numGE, numLE, ratingOKb, setProp_structured m h,
      Bool.and_assoc, Except.map]

theorem setMovieRating_primitive_truthy (m r : JSValue) (h : isStructured m = false)
    (ht : truthy m = true) :
    setMovieRating m r =
      if ratingOKb r then Except.error JSError.typeError
      else Except.ok (m, ["Invalid movie object or rating"]) := by
  cases r <;>
    simp [setMovieRating, ht, typeof, numGE, numLE, ratingOKb, setProp_primitive m h,
      Bool.and_assoc, Except.map]

theorem addMovieGenre_falsy (m g : JSValue) (h : truthy m = false) :
    addMovieGenre m g = Except.ok (m, ["Invalid movie object or genre"]) := by
  simp [addMovieGenre, h]

theorem addMovieGenre_structured (m g : JSValue) (h : isStructured m = true) :
    addMovieGenre m g =
      if genreOKb g then Except.ok (setField m "genre" g, [])
      else Except.ok (m, ["Invalid movie object or genre"]) := by
  have ht := structured_truthy m h
  cases g <;>
    simp [addMovieGenre, ht, typeof, strIncludes, genreOKb, allowedGenres,
      setProp_structured m h, Bool.and_assoc, Except.map]

theorem addMovieGenre_primitive_truthy (m g : JSValue) (h : isStructured m = false)
    (ht : truthy m = true) :
    addMovieGenre m g =
      if genreOKb g then Except.error JSError.typeError
      else Except.ok (m, ["Invalid movie object or genre"]) := by
  cases g <;>
    simp [addMovieGenre, ht, typeof, strIncludes, genreOKb, allowedGenres,
      setProp_primitive m h, Bool.and_assoc, Except.map]

theorem jsIsArray_getProp (m : JSValue) (k : String) :
    jsIsArray (getProp m k) = true ↔ ∃ es ps, getOwn m k = some (JSValue.varr es ps) := by
  cases hv : getOwn m k with
  | none => simp [getProp, hv, jsIsArray]
  | some v => cases v <;> simp [getProp, hv, jsIsArray]

theorem hasPropertyOfType_char (obj : JSValue) (prop ty : String) :
    hasPropertyOfType obj prop ty = true ↔
      (isStructured obj = true ∧ ∃ v, getOwn obj prop = some v ∧ typeof v = ty) := by
  cases hv : getOwn obj prop with
  | none => simp [hasPropertyOfType, isObject_eq_isStructured, hasOwn, getProp, hv]
  | some v => simp [hasPropertyOfType, isObject_eq_isStructured, hasOwn, getProp, hv]

theorem getMovieYear_of_num (m : JSValue) (q : ℚ)
    (h : getOwn m "year" = some (JSValue.vnum q)) :
    getMovieYear m = (q, []) := by
  have hs : isStructured m = true := by
    cases m <;> simp_all [getOwn, isStructured, strIndex?_year]
  have hp : hasPropertyOfType m "year" "number" = true :=
    (hasPropertyOfType_char m "year" "number").2 ⟨hs, JSValue.vnum q, h, rfl⟩
  simp [getMovieYear, hp, getProp, h]

theorem getMovieYear_sentinel (m : JSValue)
    (h : ∀ q : ℚ, getOwn m "year" ≠ some (JSValue.vnum q)) :
    getMovieYear m = (0, ["getMovieYear: Invalid movie object or year missing."]) := by
  have hp : hasPropertyOfType m "year" "number" = false := by
    rw [← Bool.not_eq_true, hasPropertyOfType_char]
    rintro ⟨-, v, hv, hty⟩
    cases v <;> simp [typeof] at hty
    exact h _ hv
  simp [getMovieYear, hp]

theorem removeDirector_falsy (m : JSValue) (ht : truthy m = false) :
    removeDirectorProperty m =
      Except.ok (m, ["Invalid movie object or director property does not exist"]) := by
  simp [removeDirectorProperty, ht]

theorem removeDirector_shadow (m v : JSValue) (ht : truthy m = true)
    (hs : getOwn m "hasOwnProperty" = some v) :
    removeDirectorProperty m = Except.error JSError.typeError := by
  simp [removeDirectorProperty, ht, hs]

theorem removeDirector_safe (m : JSValue) (ht : truthy m = true)
    (hs : getOwn m "hasOwnProperty" = none) :
    removeDirectorProperty m =
      if hasOwn m "director" then Except.ok (deleteProp m "director", [])
      else Except.ok (m, ["Invalid movie object or director property does not exist"]) := by
  simp [removeDirectorProperty, ht, hs]

theorem isStructured_deleteProp (m : JSValue) (k : String) :
    isStructured (deleteProp m k) = isStructured m := by
  cases m <;> rfl

theorem addCastMember_valid (m x : JSValue) (es : List JSValue)
    (ps : List (String × JSValue)) (hm : isStructured m = true)
    (hc : getOwn m "cast" = some (JSValue.varr es ps))
    (hpush : lookupProp ps "push" = none) (hx : typeof x = "string") :
    addCastMember m x =
      Except.ok (setField m "cast" (JSValue.varr (es ++ [x]) ps), []) := by
  have ht := structured_truthy m hm
  have harr : jsIsArray (getProp m "cast") = true := by simp [getProp, hc, jsIsArray]
  have hxs : (typeof x == "string") = true := by simp [hx]
  simp [addCastMember, ht, harr, hxs, pushCastCall, getProp, hc, jsIsArray, hpush,
    Except.map]

theorem addCastMember_shadow (m x v : JSValue) (es : List JSValue)
    (ps : List (String × JSValue)) (ht : truthy m = true)
    (hc : getOwn m "cast" = some (JSValue.varr es ps))
    (hpush : lookupProp ps "push" = some v) (hx : typeof x = "string") :
    addCastMember m x = Except.error JSError.typeError := by
  have harr : jsIsArray (getProp m "cast") = true := by simp [getProp, hc, jsIsArray]
  have hxs : (typeof x == "string") = true := by simp [hx]
  simp [addCastMember, ht, harr, hxs, pushCastCall, getProp, hc, jsIsArray, hpush,
    Except.map]

theorem addCastMember_invalid (m x : JSValue)
    (h : truthy m = false ∨ (∀ es ps, getOwn m "cast" ≠ some (JSValue.varr es ps)) ∨
      typeof x ≠ "string") :
    addCastMember m x =
      Except.ok (m, ["Invalid movie object, cast array, or new member"]) := by
  rcases h with h | h | h
  · simp [addCastMember, h]
  · have harr : jsIsArray (getProp m "cast") = false := by
      rw [← Bool.not_eq_true, jsIsArray_getProp m "cast"]
      rintro ⟨es, ps, hc⟩
      exact h es ps hc
    simp [addCastMember, harr]
  · have hxs : (typeof x == "string") = false := by simp [h]
    simp [addCastMember, hxs]

/-- Claim C2: on a non-null structured record, a numeric rating within
[0, 10] is written to the rating property of the returned record with no
diagnostic, and a non-numeric or out-of-range rating leaves the whole
record unchanged (a logged diagnostic is the only effect). -/
theorem claim2_setMovieRating (m r : JSValue) (hm : isStructured m = true) :
    (ratingOKb r = true →
      ∃ m1, setMovieRating m r = Except.ok (m1, []) ∧ getOwn m1 "rating" = some r) ∧
    (ratingOKb r = false →
      setMovieRating m r = Except.ok (m, ["Invalid movie object or rating"])) := by
  constructor
  · intro hr
    refine ⟨setField m "rating" r, ?_, ?_⟩
    · rw [setMovieRating_structured m r hm, if_pos hr]
    · exact getOwn_setField_self m hm "rating" r (by decide) strIndex?_rating
  · intro hr
    rw [setMovieRating_structured m r hm, if_neg (by simp [hr])]

/-- Witness for claim C2: a rating of 7 is stored on a concrete record,
and a string rating leaves a concrete record unchanged. -/
theorem claim2_witness :
    (∃ m1, setMovieRating (JSValue.vobj [("title", JSValue.vstr "X")]) (JSValue.vnum 7)
        = Except.ok (m1, []) ∧ getOwn m1 "rating" = some (JSValue.vnum 7)) ∧
    setMovieRating (JSValue.vobj [("title", JSValue.vstr "X")]) (JSValue.vstr "hi")
      = Except.ok (JSValue.vobj [("title", JSValue.vstr "X")],
          ["Invalid movie object or rating"]) :=
  ⟨(claim2_setMovieRating (JSValue.vobj [("title", JSValue.vstr "X")])
      (JSValue.vnum 7) rfl).1 (by decide),
   (claim2_setMovieRating (JSValue.vobj [("title", JSValue.vstr "X")])
      (JSValue.vstr "hi") rfl).2 rfl⟩

/-- Claim C3: on a non-null structured record, the genre property is set
exactly when the argument is a string that is an exact case-sensitive
member of the AllowedGenres set, replacing any existing genre value;
any other argument leaves the whole record unchanged. -/
theorem claim3_addMovieGenre (m g : JSValue) (hm : isStructured m = true) :
    (genreOKb g = true →
      ∃ m1, addMovieGenre m g = Except.ok (m1, []) ∧ getOwn m1 "genre" = some g) ∧
    (genreOKb g = false →
      addMovieGenre m g = Except.ok (m, ["Invalid movie object or genre"])) := by
  constructor
  · intro hg
    refine ⟨setField m "genre" g, ?_, ?_⟩
    · rw [addMovieGenre_structured m g hm, if_pos hg]
    · exact getOwn_setField_self m hm "genre" g (by decide) strIndex?_genre
  · intro hg
    rw [addMovieGenre_structured m g hm, if_neg (by simp [hg])]

/-- Witness for claim C3: Action replaces an existing Drama genre on a
concrete record, and a lower-case genre string leaves a concrete record
unchanged. -/
theorem claim3_witness :
    (∃ m1, addMovieGenre (JSValue.vobj [("genre", JSValue.vstr "Drama")])
        (JSValue.vstr "Action") = Except.ok (m1, []) ∧
        getOwn m1 "genre" = some (JSValue.vstr "Action")) ∧
    addMovieGenre (JSValue.vobj [("genre", JSValue.vstr "Drama")]) (JSValue.vstr "action")
      = Except.ok (JSValue.vobj [("genre", JSValue.vstr "Drama")],
          ["Invalid movie object or genre"]) :=
  ⟨(claim3_addMovieGenre (JSValue.vobj [("genre", JSValue.vstr "Drama")])
      (JSValue.vstr "Action") rfl).1 (by decide),
   (claim3_addMovieGenre (JSValue.vobj [("genre", JSValue.vstr "Drama")])
      (JSValue.vstr "action") rfl).2 (by decide)⟩

/-- Claim C4 (amended): on a non-null structured record that has no own
hasOwnProperty property (so the call movie.hasOwnProperty resolves to
the inherited prototype method), removing the director property makes it
absent when it was present, is a no-op on the record when it was absent,
and applying the function to a returned record returns that record
unchanged again, with no exception on any of those paths; a record WITH
an own hasOwnProperty property instead makes the method call throw a
TypeError, because the own value shadows the prototype method and no
function value exists in the embedded fragment. -/
theorem claim4_removeDirector (m : JSValue) (hm : isStructured m = true)
    (hsafe : getOwn m "hasOwnProperty" = none) :
    (hasOwn m "director" = true →
      ∃ m1, removeDirectorProperty m = Except.ok (m1, []) ∧
        hasOwn m1 "director" = false) ∧
    (hasOwn m "director" = false →
      removeDirectorProperty m =
        Except.ok (m, ["Invalid movie object or director property does not exist"])) ∧
    (∀ m1 log, removeDirectorProperty m = Except.ok (m1, log) →
      ∃ log2, removeDirectorProperty m1 = Except.ok (m1, log2)) := by
  have ht := structured_truthy m hm
  have hred := removeDirector_safe m ht hsafe
  have hgone : hasOwn (deleteProp m "director") "director" = false := by
    simp [hasOwn, getOwn_deleteProp_self m "director" (by decide) strIndex?_director]
  have hsafe1 : getOwn (deleteProp m "director") "hasOwnProperty" = none := by
    rw [(framedAt_deleteProp m "director").1 "hasOwnProperty" (by decide)]
    exact hsafe
  have ht1 : truthy (deleteProp m "director") = true :=
    structured_truthy _ (by rw [isStructured_deleteProp m "director"]; exact hm)
  refine ⟨?_, ?_, ?_⟩
  · intro hd
    exact ⟨deleteProp m "director", by rw [hred, if_pos hd], hgone⟩
  · intro hd
    rw [hred, if_neg (by simp [hd])]
  · intro m1 log h
    by_cases hd : hasOwn m "director" = true
    · rw [hred, if_pos hd] at h
      simp at h
      obtain ⟨rfl, rfl⟩ := h
      rw [removeDirector_safe (deleteProp m "director") ht1 hsafe1,
        if_neg (by simp [hgone])]
      exact ⟨_, rfl⟩
    · rw [hred, if_neg hd] at h
      simp at h
      obtain ⟨rfl, rfl⟩ := h
      rw [hred, if_neg hd]
      exact ⟨_, rfl⟩

/-- Claim C4 counterexample: the claim promises no exception on every
non-null structured record, but the source calls the method through the
record, movie.hasOwnProperty("director"), so a structured record whose
own hasOwnProperty property (a number, hence not callable) shadows the
prototype method makes the call throw a TypeError instead of deleting
and returning. -/
theorem claim4_counterexample :
    removeDirectorProperty
        (JSValue.vobj [("hasOwnProperty", JSValue.vnum 1), ("director", JSValue.vstr "X")])
      = Except.error JSError.typeError := rfl

/-- Witness for claim C4 at a concrete record holding a director and no
shadowing hasOwnProperty property. -/
theorem claim4_witness :
    ∃ m1, removeDirectorProperty (JSValue.vobj [("director", JSValue.vstr "John Lasseter")])
        = Except.ok (m1, []) ∧ hasOwn m1 "director" = false :=
  (claim4_removeDirector (JSValue.vobj [("director", JSValue.vstr "John Lasseter")])
    rfl rfl).1 rfl

/-- Claim C5 (amended): on a non-null structured record whose cast
property holds an array with no own push property (so the call
movie.cast.push resolves to the inherited array method), appending a
string cast member grows the cast by exactly one, places the new member
last, and preserves the existing entries and their order; every
guard-failing input (including a record with no cast) leaves the record
unchanged, so no cast is created; an own push property on the cast array
instead shadows the array method with a non-callable value and the call
throws a TypeError. -/
theorem claim5_addCastMember (m x : JSValue) :
    (∀ es ps, isStructured m = true → getOwn m "cast" = some (JSValue.varr es ps) →
      lookupProp ps "push" = none → typeof x = "string" →
      ∃ m1 cs, addCastMember m x = Except.ok (m1, []) ∧
        getOwn m1 "cast" = some (JSValue.varr cs ps) ∧ cs = es ++ [x] ∧
        cs.length = es.length + 1 ∧ cs.getLast? = some x ∧
        cs.take es.length = es) ∧
    ((truthy m = false ∨ (∀ es ps, getOwn m "cast" ≠ some (JSValue.varr es ps)) ∨
        typeof x ≠ "string") →
      addCastMember m x =
        Except.ok (m, ["Invalid movie object, cast array, or new member"])) := by
  constructor
  · intro es ps hm hc hpush hx
    refine ⟨setField m "cast" (JSValue.varr (es ++ [x]) ps), es ++ [x],
      addCastMember_valid m x es ps hm hc hpush hx, ?_, rfl, by simp,
      List.getLast?_concat es, List.take_left es [x]⟩
    exact getOwn_setField_self m hm "cast" (JSValue.varr (es ++ [x]) ps)
      (by decide) strIndex?_cast
  · exact addCastMember_invalid m x

/-- Claim C5 counterexample: the claim quantifies over every record whose
cast is an ordered sequence, but when the cast array carries an own push
property (a number, hence not callable) the source call
movie.cast.push(newMember) throws a TypeError instead of growing the
cast by one. -/
theorem claim5_counterexample :
    addCastMember (JSValue.vobj [("cast", JSValue.varr [] [("push", JSValue.vnum 1)])])
        (JSValue.vstr "s") = Except.error JSError.typeError := rfl

/-- Witness for claim C5 at a concrete record with a one-element
shadow-free cast. -/
theorem claim5_witness :
    ∃ m1 cs, addCastMember
        (JSValue.vobj [("cast", JSValue.varr [JSValue.vstr "Tom Hanks"] [])])
        (JSValue.vstr "Joan Cusack") = Except.ok (m1, []) ∧
      getOwn m1 "cast" = some (JSValue.varr cs []) ∧
      cs = [JSValue.vstr "Tom Hanks"] ++ [JSValue.vstr "Joan Cusack"] ∧
      cs.length = [JSValue.vstr "Tom Hanks"].length + 1 ∧
      cs.getLast? = some (JSValue.vstr "Joan Cusack") ∧
      cs.take [JSValue.vstr "Tom Hanks"].length = [JSValue.vstr "Tom Hanks"] :=
  (claim5_addCastMember (JSValue.vobj [("cast", JSValue.varr [JSValue.vstr "Tom Hanks"] [])])
    (JSValue.vstr "Joan Cusack")).1 [JSValue.vstr "Tom Hanks"] [] rfl rfl rfl rfl

/-- Claim C6: getMovieYear returns the year value when it is present as an
own property of number type and the sentinel 0 otherwise (including for
null and for a record without a year); isMovieClassic is false whenever
the year resolves to 0 and otherwise holds exactly when the year is
strictly below 2000, as the 1995/2020 scenario shows. -/
theorem claim6_year_classic (m : JSValue) :
    (∀ q : ℚ, getOwn m "year" = some (JSValue.vnum q) → (getMovieYear m).1 = q) ∧
    ((∀ q : ℚ, getOwn m "year" ≠ some (JSValue.vnum q)) → (getMovieYear m).1 = 0) ∧
    ((getMovieYear m).1 = 0 → (isMovieClassic m).1 = false) ∧
    ((getMovieYear m).1 ≠ 0 →
      ((isMovieClassic m).1 = true ↔ (getMovieYear m).1 < 2000)) ∧
    (getMovieYear (JSValue.vobj [("year", JSValue.vnum 1995)])).1 = 1995 ∧
    (isMovieClassic (JSValue.vobj [("year", JSValue.vnum 1995)])).1 = true ∧
    (isMovieClassic (JSValue.vobj [("year", JSValue.vnum 2020)])).1 = false ∧
    (getMovieYear (JSValue.vobj [])).1 = 0 ∧
    (getMovieYear JSValue.vnull).1 = 0 := by
  refine ⟨?_, ?_, ?_, ?_, by decide, by decide, by decide, by decide, by decide⟩
  · intro q hq
    rw [getMovieYear_of_num m q hq]
  · intro hq
    rw [getMovieYear_sentinel m hq]
  · intro h0
    simp [isMovieClassic, h0]
  · intro h0
    simp [isMovieClassic, h0]

/-- Witness for claim C6: the year of a concrete record is read back, and
a record with a non-numeric year yields the sentinel. -/
theorem claim6_witness :
    (getMovieYear (JSValue.vobj [("year", JSValue.vnum 1977)])).1 = 1977 ∧
    (getMovieYear (JSValue.vobj [("year", JSValue.vstr "1977")])).1 = 0 :=
  ⟨(claim6_year_classic (JSValue.vobj [("year", JSValue.vnum 1977)])).1 1977 rfl,
   (claim6_year_classic (JSValue.vobj [("year", JSValue.vstr "1977")])).2.1
     (by intro q; simp [getOwn, lookupProp])⟩

/-- Claim C7: every call of getAllowedGenres returns a freshly allocated
array holding exactly Animation, Family, Action, Comedy, Drama, Sci-Fi,
and overwriting a returned array does not change the canonical constant
or the contents returned by a subsequent call. -/
theorem readArray_getAllowedGenresCall (s : ArrayStore) :
    readArray (getAllowedGenresCall s).1 (getAllowedGenresCall s).2 = allowedGenres := by
  simp [getAllowedGenresCall, readArray, List.getElem?_concat_length]

theorem claim7_getAllowedGenres (s : ArrayStore) (v : List String) :
    readArray (getAllowedGenresCall s).1 (getAllowedGenresCall s).2 =
      ["Animation", "Family", "Action", "Comedy", "Drama", "Sci-Fi"] ∧
    readArray
        (getAllowedGenresCall
          (writeArray (getAllowedGenresCall s).1 (getAllowedGenresCall s).2 v)).1
        (getAllowedGenresCall
          (writeArray (getAllowedGenresCall s).1 (getAllowedGenresCall s).2 v)).2 =
      ["Animation", "Family", "Action", "Comedy", "Drama", "Sci-Fi"] ∧
    allowedGenres = ["Animation", "Family", "Action", "Comedy", "Drama", "Sci-Fi"] := by
  refine ⟨?_, ?_, rfl⟩
  · rw [readArray_getAllowedGenresCall]
    rfl
  · rw [readArray_getAllowedGenresCall]
    rfl

/-- Claim C8: hasPropertyOfType holds exactly when the record is a
non-null structured value carrying the property as an own property whose
runtime type matches the expected type tag, as the title scenarios show
(it is a pure predicate by construction: its embedding returns a bare
boolean with no diagnostic channel). -/
theorem claim8_hasPropertyOfType (obj : JSValue) (prop ty : String) :
    (hasPropertyOfType obj prop ty = true ↔
      (isStructured obj = true ∧ ∃ v, getOwn obj prop = some v ∧ typeof v = ty)) ∧
    hasPropertyOfType (JSValue.vobj [("title", JSValue.vstr "X")]) "title" "string" = true ∧
    hasPropertyOfType (JSValue.vobj [("title", JSValue.vnum 5)]) "title" "string" = false ∧
    hasPropertyOfType JSValue.vnull "title" "string" = false :=
  ⟨hasPropertyOfType_char obj prop ty, rfl, rfl, rfl⟩

/-- Claim C10: the validity check of the accessor module accepts arrays,
so getMovieKeys on an array returns its index keys as strings with no
diagnostic, getMoviePropertiesCount returns its length, and
hasPropertyOfType inspects its elements under their canonical index-key
strings. -/
theorem claim10_arrays (es : List JSValue) :
    isObject (JSValue.varr es []) = true ∧
    getMovieKeys (JSValue.varr es []) =
      ((List.range es.length).map (fun i => toString i), []) ∧
    (getMoviePropertiesCount (JSValue.varr es [])).1 = es.length ∧
    (∀ (k : String) (i : Nat) (ty : String), strIndex? k = some i →
      (hasPropertyOfType (JSValue.varr es []) k ty = true ↔
        ∃ v, es.get? i = some v ∧ typeof v = ty)) := by
  refine ⟨rfl, ?_, ?_, ?_⟩
  · simp [getMovieKeys, isObject, typeof, objKeys]
  · simp [getMoviePropertiesCount, getMovieKeys, isObject, typeof, objKeys]
  · intro k i ty hk
    have hlen : ¬(k = "length") := by
      intro he
      rw [he] at hk
      simp [show strIndex? "length" = none from by decide] at hk
    rw [hasPropertyOfType_char]
    simp [isStructured, getOwn, hlen, hk]

/-- Witness for claim C10: element 0 of a concrete one-element array is
seen as an own string property. -/
theorem claim10_witness :
    hasPropertyOfType (JSValue.varr [JSValue.vstr "Tom"] []) "0" "string" = true :=
  ((claim10_arrays [JSValue.vstr "Tom"]).2.2.2 "0" 0 "string" (by decide)).2
    ⟨JSValue.vstr "Tom", rfl, rfl⟩

theorem setMovieRating_ok_frame (m r m1 : JSValue) (log : List String)
    (h : setMovieRating m r = Except.ok (m1, log)) : framedAt m m1 "rating" := by
  by_cases hs : isStructured m = true
  · rw [setMovieRating_structured m r hs] at h
    by_cases hr : ratingOKb r = true
    · rw [if_pos hr] at h
      simp at h
      obtain ⟨rfl, rfl⟩ := h
      exact framedAt_setField m "rating" r
    · rw [if_neg hr] at h
      simp at h
      obtain ⟨rfl, rfl⟩ := h
      exact framedAt_refl m "rating"
  · by_cases ht : truthy m = true
    · rw [setMovieRating_primitive_truthy m r (by simpa using hs) ht] at h
      by_cases hr : ratingOKb r = true
      · rw [if_pos hr] at h
        simp at h
      · rw [if_neg hr] at h
        simp at h
        obtain ⟨rfl, rfl⟩ := h
        exact framedAt_refl m "rating"
    · rw [setMovieRating_falsy m r (by simpa using ht)] at h
      simp at h
      obtain ⟨rfl, rfl⟩ := h
      exact framedAt_refl m "rating"

theorem addMovieGenre_ok_frame (m g m1 : JSValue) (log : List String)
    (h : addMovieGenre m g = Except.ok (m1, log)) : framedAt m m1 "genre" := by
  by_cases hs : isStructured m = true
  · rw [addMovieGenre_structured m g hs] at h
    by_cases hg : genreOKb g = true
    · rw [if_pos hg] at h
      simp at h
      obtain ⟨rfl, rfl⟩ := h
      exact framedAt_setField m "genre" g
    · rw [if_neg hg] at h
      simp at h
      obtain ⟨rfl, rfl⟩ := h
      exact framedAt_refl m "genre"
  · by_cases ht : truthy m = true
    · rw [addMovieGenre_primitive_truthy m g (by simpa using hs) ht] at h
      by_cases hg : genreOKb g = true
      · rw [if_pos hg] at h
        simp at h
      · rw [if_neg hg] at h
        simp at h
        obtain ⟨rfl, rfl⟩ := h
        exact framedAt_refl m "genre"
    · rw [addMovieGenre_falsy m g (by simpa using ht)] at h
      simp at h
      obtain ⟨rfl, rfl⟩ := h
      exact framedAt_refl m "genre"

theorem removeDirector_ok_frame (m m1 : JSValue) (log : List String)
    (h : removeDirectorProperty m = Except.ok (m1, log)) : framedAt m m1 "director" := by
  by_cases ht : truthy m = true
  · cases hs : getOwn m "hasOwnProperty" with
    | some v =>
      rw [removeDirector_shadow m v ht hs] at h
      simp at h
    | none =>
      rw [removeDirector_safe m ht hs] at h
      by_cases hd : hasOwn m "director" = true
      · rw [if_pos hd] at h
        simp at h
        obtain ⟨rfl, rfl⟩ := h
        exact framedAt_deleteProp m "director"
      · rw [if_neg hd] at h
        simp at h
        obtain ⟨rfl, rfl⟩ := h
        exact framedAt_refl m "director"
  · rw [removeDirector_falsy m (by simpa using ht)] at h
    simp at h
    obtain ⟨rfl, rfl⟩ := h
    exact framedAt_refl m "director"

theorem addCastMember_ok_frame (m x m1 : JSValue) (log : List String)
    (h : addCastMember m x = Except.ok (m1, log)) : framedAt m m1 "cast" := by
  unfold addCastMember at h
  by_cases hg : (truthy m && jsIsArray (getProp m "cast") && (typeof x == "string")) = true
  · rw [if_pos hg] at h
    have harr : jsIsArray (getProp m "cast") = true := by
      simp [Bool.and_eq_true] at hg
      exact hg.1.2
    obtain ⟨es, ps, hc⟩ := (jsIsArray_getProp m "cast").1 harr
    have hgp : getProp m "cast" = JSValue.varr es ps := by simp [getProp, hc]
    unfold pushCastCall at h
    rw [hgp] at h
    dsimp only at h
    cases hp : lookupProp ps "push" with
    | some v =>
      rw [hp] at h
      simp [Except.map] at h
    | none =>
      rw [hp] at h
      simp [Except.map] at h
      obtain ⟨rfl, rfl⟩ := h
      exact framedAt_setField m "cast" (JSValue.varr (es ++ [x]) ps)
  · rw [if_neg hg] at h
    simp at h
    obtain ⟨rfl, rfl⟩ := h
    exact framedAt_refl m "cast"

/-- Claim C9 (implicit): each mutation function touches at most its single
designated property: whenever a record comes back, every own property
other than the target is unchanged, and the key list with the target
removed is unchanged, on the valid and the invalid path alike (on the
throw paths no record is returned, so there is nothing to frame). -/
theorem claim9_frame (m r g x : JSValue) :
    (∀ m1 log, setMovieRating m r = Except.ok (m1, log) → framedAt m m1 "rating") ∧
    (∀ m1 log, addMovieGenre m g = Except.ok (m1, log) → framedAt m m1 "genre") ∧
    (∀ m1 log, removeDirectorProperty m = Except.ok (m1, log) → framedAt m m1 "director") ∧
    (∀ m1 log, addCastMember m x = Except.ok (m1, log) → framedAt m m1 "cast") :=
  ⟨fun m1 log h => setMovieRating_ok_frame m r m1 log h,
   fun m1 log h => addMovieGenre_ok_frame m g m1 log h,
   fun m1 log h => removeDirector_ok_frame m m1 log h,
   fun m1 log h => addCastMember_ok_frame m x m1 log h⟩

/-- Witness for claim C9: writing a rating on a concrete one-property
record leaves that property and the rest of the key list unchanged. -/
theorem claim9_witness :
    framedAt (JSValue.vobj [("a", JSValue.vnum 1)])
      (JSValue.vobj [("a", JSValue.vnum 1), ("rating", JSValue.vnum 7)]) "rating" :=
  (claim9_frame (JSValue.vobj [("a", JSValue.vnum 1)]) (JSValue.vnum 7)
      JSValue.vundefined JSValue.vundefined).1
    (JSValue.vobj [("a", JSValue.vnum 1), ("rating", JSValue.vnum 7)]) [] rfl

/-- Claim C1 (amended): every function returns a value of its declared
result type and invalid input is only logged, with the mutation
functions returning their first argument unchanged, EXCEPT on the
reachable TypeError paths: a truthy primitive record with a valid
rating (setMovieRating) or an allowed genre (addMovieGenre) reaches the
strict-mode property assignment on a primitive; a truthy record with an
own hasOwnProperty property makes removeDirectorProperty call that
non-callable shadow; and a guard-passing record whose cast array has an
own push property makes addCastMember call that non-callable shadow.
For falsy records, for structured records free of those shadows, and
for every other argument combination no exception occurs. -/
theorem claim1_amended (m r g x : JSValue) :
    (truthy m = false →
      setMovieRating m r = Except.ok (m, ["Invalid movie object or rating"]) ∧
      addMovieGenre m g = Except.ok (m, ["Invalid movie object or genre"]) ∧
      removeDirectorProperty m =
        Except.ok (m, ["Invalid movie object or director property does not exist"]) ∧
      addCastMember m x =
        Except.ok (m, ["Invalid movie object, cast array, or new member"])) ∧
    (isStructured m = true →
      (∃ p, setMovieRating m r = Except.ok p) ∧
      (∃ p, addMovieGenre m g = Except.ok p) ∧
      (getOwn m "hasOwnProperty" = none → ∃ p, removeDirectorProperty m = Except.ok p) ∧
      ((∀ es ps, getOwn m "cast" = some (JSValue.varr es ps) →
          lookupProp ps "push" = none) →
        ∃ p, addCastMember m x = Except.ok p)) ∧
    (isStructured m = false → truthy m = true →
      (ratingOKb r = true → setMovieRating m r = Except.error JSError.typeError) ∧
      (ratingOKb r = false →
        setMovieRating m r = Except.ok (m, ["Invalid movie object or rating"])) ∧
      (genreOKb g = true → addMovieGenre m g = Except.error JSError.typeError) ∧
      (genreOKb g = false →
        addMovieGenre m g = Except.ok (m, ["Invalid movie object or genre"])) ∧
      removeDirectorProperty m =
        Except.ok (m, ["Invalid movie object or director property does not exist"]) ∧
      addCastMember m x =
        Except.ok (m, ["Invalid movie object, cast array, or new member"])) ∧
    (∀ v, truthy m = true → getOwn m "hasOwnProperty" = some v →
      removeDirectorProperty m = Except.error JSError.typeError) ∧
    (∀ es ps v, truthy m = true → getOwn m "cast" = some (JSValue.varr es ps) →
      lookupProp ps "push" = some v → typeof x = "string" →
      addCastMember m x = Except.error JSError.typeError) ∧
    (isObject m = false →
      (getMovieTitle m).1 = "" ∧ (getMovieYear m).1 = 0 ∧
      (isMovieClassic m).1 = false ∧ (getMovieKeys m).1 = [] ∧
      (getMoviePropertiesCount m).1 = 0) := by
  refine ⟨?_, ?_, ?_, ?_, ?_, ?_⟩
  · intro ht
    exact ⟨setMovieRating_falsy m r ht, addMovieGenre_falsy m g ht,
      removeDirector_falsy m ht, addCastMember_invalid m x (Or.inl ht)⟩
  · intro hs
    refine ⟨?_, ?_, ?_, ?_⟩
    · rw [setMovieRating_structured m r hs]
      by_cases hr : ratingOKb r = true
      · rw [if_pos hr]
        exact ⟨_, rfl⟩
      · rw [if_neg hr]
        exact ⟨_, rfl⟩
    · rw [addMovieGenre_structured m g hs]
      by_cases hg : genreOKb g = true
      · rw [if_pos hg]
        exact ⟨_, rfl⟩
      · rw [if_neg hg]
        exact ⟨_, rfl⟩
    · intro hsafe
      rw [removeDirector_safe m (structured_truthy m hs) hsafe]
      by_cases hd : hasOwn m "director" = true
      · rw [if_pos hd]
        exact ⟨_, rfl⟩
      · rw [if_neg hd]
        exact ⟨_, rfl⟩
    · intro hnp
      by_cases harr : ∃ es ps, getOwn m "cast" = some (JSValue.varr es ps)
      · obtain ⟨es, ps, hc⟩ := harr
        by_cases hx2 : typeof x = "string"
        · exact ⟨_, addCastMember_valid m x es ps hs hc (hnp es ps hc) hx2⟩
        · exact ⟨_, addCastMember_invalid m x (Or.inr (Or.inr hx2))⟩
      · have hne : ∀ es ps, getOwn m "cast" ≠ some (JSValue.varr es ps) :=
          fun es ps hc => harr ⟨es, ps, hc⟩
        exact ⟨_, addCastMember_invalid m x (Or.inr (Or.inl hne))⟩
  · intro hs ht
    have hnd : hasOwn m "director" = false := by
      cases m <;> simp_all [isStructured, hasOwn, getOwn, strIndex?_director]
    have hsafe : getOwn m "hasOwnProperty" = none := by
      cases m <;> simp_all [isStructured, getOwn, strIndex?_hasOwnProperty]
    have hnc : ∀ es ps, getOwn m "cast" ≠ some (JSValue.varr es ps) := by
      intro es ps
      cases m <;> simp_all [isStructured, getOwn, strIndex?_cast]
    refine ⟨?_, ?_, ?_, ?_, ?_, ?_⟩
    · intro hr
      rw [setMovieRating_primitive_truthy m r hs ht, if_pos hr]
    · intro hr
      rw [setMovieRating_primitive_truthy m r hs ht, if_neg (by simp [hr])]
    · intro hg
      rw [addMovieGenre_primitive_truthy m g hs ht, if_pos hg]
    · intro hg
      rw [addMovieGenre_primitive_truthy m g hs ht, if_neg (by simp [hg])]
    · rw [removeDirector_safe m ht hsafe, if_neg (by simp [hnd])]
    · exact addCastMember_invalid m x (Or.inr (Or.inl hnc))
  · intro v ht hvs
    exact removeDirector_shadow m v ht hvs
  · intro es ps v ht hc hp hx2
    exact addCastMember_shadow m x v es ps ht hc hp hx2
  · intro hio
    have hpt : ∀ p t, hasPropertyOfType m p t = false := by
      intro p t
      simp [hasPropertyOfType, hio]
    refine ⟨?_, ?_, ?_, ?_, ?_⟩
    · simp [getMovieTitle, hpt]
    · simp [getMovieYear, hpt]
    · simp [isMovieClassic, getMovieYear, hpt]
    · simp [getMovieKeys, hio]
    · simp [getMoviePropertiesCount, hio]

/-- Claim C1 counterexample: the claim promises that every input,
including non-empty strings, returns without an exception, but both
modules are ES modules and hence strict-mode code, so passing the truthy
primitive "abc" with the valid rating 5 reaches the assignment
movie.rating = rating on a string primitive, which raises a TypeError
instead of returning. -/
theorem claim1_counterexample :
    setMovieRating (JSValue.vstr "abc") (JSValue.vnum 5) =
      Except.error JSError.typeError := rfl

/-- Witness for claim C1 (amended): null is passed through unchanged with
only a logged diagnostic. -/
theorem claim1_witness :
    setMovieRating JSValue.vnull (JSValue.vnum 5)
      = Except.ok (JSValue.vnull, ["Invalid movie object or rating"]) :=
  ((claim1_amended JSValue.vnull (JSValue.vnum 5) JSValue.vundefined JSValue.vundefined).1 rfl).1
